import Mathlib

/-!
# Verification of the reactor-safety-sim core

Shallow embedding of the core crates of `reactor-safety-sim`:

* `crates/safety/src/lib.rs` — the 2-of-3 voting safety monitor,
* `crates/controller/src/lib.rs` — the PID controller with saturation and
  anti-windup,
* `crates/sim/src/lib.rs` — the thermal plant model and the fault-injecting
  sensor.

`f64` is modelled by the type `F` below: NaN, the two infinities, and finite
values represented exactly as rationals (rounding and overflow are not
modelled; a negative zero is identified with zero).  The PID controller,
whose claims quantify over finite inputs only, is embedded directly over `ℚ`.
The sensor's private random generator is abstracted by passing the sampled
noise value as an explicit argument.
-/

set_option autoImplicit false

namespace ReactorSim

/-- Model of `f64`: NaN, the infinities, or a finite value (an exact rational;
rounding and overflow are not modelled). -/
inductive F where
  | nan : F
  | inf : F
  | ninf : F
  | fin : ℚ → F
  deriving DecidableEq

namespace F

/-- `f64::is_nan`. -/
def isNan : F → Bool
  | nan => true
  | _ => false

/-- `f64::is_finite`: false for NaN and for both infinities. -/
def isFinite : F → Bool
  | fin _ => true
  | _ => false

/-- IEEE `<=` on `f64`: any comparison with NaN is false. -/
def ble : F → F → Bool
  | nan, _ => false
  | _, nan => false
  | _, inf => true
  | inf, _ => false
  | ninf, _ => true
  | _, ninf => false
  | fin x, fin y => x ≤ y

/-- IEEE `<` on `f64`: any comparison with NaN is false. -/
def blt : F → F → Bool
  | nan, _ => false
  | _, nan => false
  | inf, _ => false
  | _, inf => true
  | _, ninf => false
  | ninf, _ => true
  | fin x, fin y => x < y

/-- IEEE addition on `f64` (exact on finite values): NaN propagates, and
`inf + ninf = nan`. -/
def add : F → F → F
  | nan, _ => nan
  | _, nan => nan
  | inf, ninf => nan
  | ninf, inf => nan
  | inf, _ => inf
  | _, inf => inf
  | ninf, _ => ninf
  | _, ninf => ninf
  | fin x, fin y => fin (x + y)

/-- IEEE negation on `f64`. -/
def neg : F → F
  | nan => nan
  | inf => ninf
  | ninf => inf
  | fin x => fin (-x)

/-- IEEE subtraction on `f64`: `a - b = a + (-b)`. -/
def sub (a b : F) : F := add a (neg b)

/-- IEEE multiplication on `f64` (exact on finite values): NaN propagates,
and `0 * inf = nan`. -/
def mul : F → F → F
  | nan, _ => nan
  | _, nan => nan
  | inf, inf => inf
  | inf, ninf => ninf
  | ninf, inf => ninf
  | ninf, ninf => inf
  | inf, fin y => if 0 < y then inf else if y < 0 then ninf else nan
  | fin x, inf => if 0 < x then inf else if x < 0 then ninf else nan
  | ninf, fin y => if 0 < y then ninf else if y < 0 then inf else nan
  | fin x, ninf => if 0 < x then ninf else if x < 0 then inf else nan
  | fin x, fin y => fin (x * y)

/-- IEEE division on `f64` (exact on finite values; the zero is unsigned, so
division of a nonzero finite value by zero follows the sign of the
numerator): NaN propagates, `inf / inf = nan`, `0 / 0 = nan`. -/
def div : F → F → F
  | nan, _ => nan
  | _, nan => nan
  | inf, inf => nan
  | inf, ninf => nan
  | ninf, inf => nan
  | ninf, ninf => nan
  | inf, fin y => if y < 0 then ninf else inf
  | ninf, fin y => if y < 0 then inf else ninf
  | fin _, inf => fin 0
  | fin _, ninf => fin 0
  | fin x, fin y =>
    if y = 0 then (if 0 < x then inf else if x < 0 then ninf else nan)
    else fin (x / y)

/-- `f64::min`: if one argument is NaN the other is returned. -/
def fmin : F → F → F
  | nan, b => b
  | a, nan => a
  | a, b => if ble a b then a else b

/-- `f64::max`: if one argument is NaN the other is returned. -/
def fmax : F → F → F
  | nan, b => b
  | a, nan => a
  | a, b => if ble a b then b else a

end F

/-! ## `crates/safety/src/lib.rs` -/

/-- `TripReason`. -/
inductive TripReason where
  | OverTemp : TripReason
  | SensorInvalid : TripReason
  | SensorDisagree : TripReason
  deriving DecidableEq

/-- `SafetyConfig`. -/
structure SafetyConfig where
  trip_temp_c : F
  max_sensor_delta_c : F
  valid_range_c : F × F
  deriving DecidableEq

/-- `SafetyState`. -/
structure SafetyState where
  scram : Bool
  reason : Option TripReason
  deriving DecidableEq

/-- `is_valid` (safety crate): finite, not NaN, and within the inclusive
valid range. -/
def is_valid (cfg : SafetyConfig) (v : F) : Bool :=
  v.isFinite && !v.isNan && F.ble cfg.valid_range_c.1 v && F.ble v cfg.valid_range_c.2

/-- `two_out_of_three`: counts the true flags and tests `count >= 2`. -/
def two_out_of_three (f0 f1 f2 : Bool) : Bool :=
  decide (2 ≤ (if f0 then 1 else 0) + (if f1 then 1 else 0) + (if f2 then (1 : Nat) else 0))

/-- `evaluate`: checks latching, then validity, then disagreement over valid
channels, then the 2-of-3 over-temperature vote.  The running minimum starts
at `+inf` and the running maximum at `-inf`, exactly as in the source. -/
def evaluate (cfg : SafetyConfig) (s : SafetyState) (t0 t1 t2 : F) : SafetyState :=
  if s.scram then s
  else
    let v0 := is_valid cfg t0
    let v1 := is_valid cfg t1
    let v2 := is_valid cfg t2
    if !two_out_of_three v0 v1 v2 then
      { scram := true, reason := some TripReason.SensorInvalid }
    else
      let min0 : F := F.inf
      let max0 : F := F.ninf
      let min1 := if v0 then F.fmin min0 t0 else min0
      let max1 := if v0 then F.fmax max0 t0 else max0
      let min2 := if v1 then F.fmin min1 t1 else min1
      let max2 := if v1 then F.fmax max1 t1 else max1
      let min3 := if v2 then F.fmin min2 t2 else min2
      let max3 := if v2 then F.fmax max2 t2 else max2
      if F.blt cfg.max_sensor_delta_c (F.sub max3 min3) then
        { scram := true, reason := some TripReason.SensorDisagree }
      else
        let o0 := v0 && F.ble cfg.trip_temp_c t0
        let o1 := v1 && F.ble cfg.trip_temp_c t1
        let o2 := v2 && F.ble cfg.trip_temp_c t2
        if two_out_of_three o0 o1 o2 then
          { scram := true, reason := some TripReason.OverTemp }
        else s

/-- Number of valid channels among the three readings. -/
def numValid (cfg : SafetyConfig) (t0 t1 t2 : F) : Nat :=
  (if is_valid cfg t0 then 1 else 0) + (if is_valid cfg t1 then 1 else 0) +
    (if is_valid cfg t2 then 1 else 0)

/-- The list of valid readings, in channel order. -/
def validReadings (cfg : SafetyConfig) (t0 t1 t2 : F) : List F :=
  ([t0, t1, t2]).filter (fun t => is_valid cfg t)

/-- Spread (max minus min, with IEEE min/max) of a list of readings, folded
from the same sentinels the source uses. -/
def spreadOf (l : List F) : F :=
  F.sub (l.foldl F.fmax F.ninf) (l.foldl F.fmin F.inf)

/-- Number of channels that are valid and read at or above the trip
temperature. -/
def numOver (cfg : SafetyConfig) (t0 t1 t2 : F) : Nat :=
  (if is_valid cfg t0 && F.ble cfg.trip_temp_c t0 then 1 else 0) +
    (if is_valid cfg t1 && F.ble cfg.trip_temp_c t1 then 1 else 0) +
    (if is_valid cfg t2 && F.ble cfg.trip_temp_c t2 then 1 else 0)

/-! ## `crates/controller/src/lib.rs`

The PID controller is embedded over the exact rationals: every claim about it
quantifies over finite inputs, and the accumulator and gains are finite in
every reachable configuration. -/

/-- `PidConfig`. -/
structure PidConfig where
  kp : ℚ
  ki : ℚ
  kd : ℚ
  out_min : ℚ
  out_max : ℚ
  deriving DecidableEq

/-- `Pid` (mutable controller state). -/
structure Pid where
  cfg : PidConfig
  integral : ℚ
  prev_error : Option ℚ
  deriving DecidableEq

/-- `Pid::new`. -/
def Pid.new (cfg : PidConfig) : Pid :=
  { cfg := cfg, integral := 0, prev_error := none }

/-- `Pid::update`: returns the updated controller state together with the
saturated output.  The integral is accumulated first, the derivative uses the
previous error when present and `dt > 0`, the raw output is clamped, and on
saturation with a same-signed error the accumulator is decayed by `0.98`. -/
def Pid.update (p : Pid) (setpoint measurement dt_s : ℚ) : Pid × ℚ :=
  let error := setpoint - measurement
  let integral1 := p.integral + error * dt_s
  let deriv : ℚ :=
    match p.prev_error with
    | some prev => if 0 < dt_s then (error - prev) / dt_s else 0
    | none => 0
  let out := p.cfg.kp * error + p.cfg.ki * integral1 + p.cfg.kd * deriv
  if p.cfg.out_max < out then
    ({ p with
        integral := if 0 < error then (49 / 50 : ℚ) * integral1 else integral1,
        prev_error := some error },
      p.cfg.out_max)
  else if out < p.cfg.out_min then
    ({ p with
        integral := if error < 0 then (49 / 50 : ℚ) * integral1 else integral1,
        prev_error := some error },
      p.cfg.out_min)
  else
    ({ p with integral := integral1, prev_error := some error }, out)

/-- The raw (pre-saturation) PID output at a given state and input: the value
the source computes into `out` before the clamp. -/
def Pid.rawOutput (p : Pid) (setpoint measurement dt_s : ℚ) : ℚ :=
  let error := setpoint - measurement
  let integral1 := p.integral + error * dt_s
  let deriv : ℚ :=
    match p.prev_error with
    | some prev => if 0 < dt_s then (error - prev) / dt_s else 0
    | none => 0
  p.cfg.kp * error + p.cfg.ki * integral1 + p.cfg.kd * deriv

/-- Iterated controller updates with a fixed setpoint, measurement and tick
length: the state after `n` calls to `Pid::update`. -/
def pidRun (setpoint measurement dt_s : ℚ) (p : Pid) : Nat → Pid
  | 0 => p
  | n + 1 => (Pid.update (pidRun setpoint measurement dt_s p n) setpoint measurement dt_s).1

/-! ## `crates/sim/src/lib.rs` -/

/-- `PlantParams`. -/
structure PlantParams where
  ambient_c : F
  thermal_mass : F
  k_power : F
  k_cool : F
  deriving DecidableEq

/-- `PlantState`. -/
structure PlantState where
  temp_c : F
  power : F
  coolant : F
  deriving DecidableEq

/-- `PlantState::step`: one forward-Euler step of the lumped thermal model,
with the NaN guard resetting the temperature to ambient. -/
def PlantState.step (s : PlantState) (p : PlantParams) (dt_s : F) : PlantState :=
  let heat_in := F.mul p.k_power s.power
  let heat_out := F.mul (F.mul p.k_cool s.coolant) (F.sub s.temp_c p.ambient_c)
  let dtemp := F.div (F.sub heat_in heat_out) p.thermal_mass
  let t1 := F.add s.temp_c (F.mul dtemp dt_s)
  { s with temp_c := if t1.isNan then p.ambient_c else t1 }

/-- `SensorFault`. -/
inductive SensorFault where
  | noFault : SensorFault
  | stuck (value : F) : SensorFault
  | bias (value : F) : SensorFault
  | drift (per_s : F) : SensorFault
  | dropoutEvery (n : Nat) : SensorFault
  deriving DecidableEq

/-- `Sensor`.  The private random generator is not part of the state: the
noise sample it would produce is passed to `read_temp` explicitly. -/
structure Sensor where
  noise_std : F
  fault : SensorFault
  valid_range : F × F
  step_count : Nat
  deriving DecidableEq

/-- `Sensor::read_temp`: increments the tick counter, applies the fault to
the true temperature (returning NaN early on a dropout tick), and adds the
sampled noise when the noise standard deviation is positive.  `noise` stands
for the value the sensor's private generator would sample. -/
def Sensor.read_temp (s : Sensor) (true_temp dt_s : F) (noise : F) :
    Sensor × F :=
  let s1 : Sensor := { s with step_count := s.step_count + 1 }
  let withNoise : F → F := fun v =>
    if F.blt (F.fin 0) s1.noise_std then F.add v noise else v
  match s.fault with
  | SensorFault.noFault => (s1, withNoise true_temp)
  | SensorFault.stuck value => (s1, withNoise value)
  | SensorFault.bias value => (s1, withNoise (F.add true_temp value))
  | SensorFault.drift per_s =>
    (s1, withNoise (F.add true_temp
      (F.mul (F.mul per_s (F.fin (s1.step_count : ℚ))) dt_s)))
  | SensorFault.dropoutEvery n =>
    if 0 < n ∧ s1.step_count % n = 0 then (s1, F.nan)
    else (s1, withNoise true_temp)

/-! ## Default configurations (the Rust `Default` impls) -/

/-- `SafetyConfig::default()`. -/
def SafetyConfig.default : SafetyConfig :=
  { trip_temp_c := F.fin 420, max_sensor_delta_c := F.fin 10,
    valid_range_c := (F.fin 0, F.fin 2000) }

/-- `SafetyState::default()`. -/
def SafetyState.default : SafetyState := { scram := false, reason := none }

/-- `PidConfig::default()`. -/
def PidConfig.default : PidConfig :=
  { kp := 1 / 50, ki := 1 / 200, kd := 0, out_min := 0, out_max := 1 }

/-- `PlantParams::default()`. -/
def PlantParams.default : PlantParams :=
  { ambient_c := F.fin 25, thermal_mass := F.fin 100, k_power := F.fin 200,
    k_cool := F.fin (3 / 2) }

/-- `PlantState::default()`. -/
def PlantState.default : PlantState :=
  { temp_c := F.fin 300, power := F.fin 0, coolant := F.fin (1 / 2) }

/-- `Sensor::new(seed)` without the private generator (the seed only feeds
the generator, which is abstracted away). -/
def Sensor.new : Sensor :=
  { noise_std := F.fin (1 / 4), fault := SensorFault.noFault,
    valid_range := (F.fin 0, F.fin 2000), step_count := 0 }

/-! ## Theorems for the safety monitor -/

/-- C1: if the scram flag is already set when `evaluate` is called, the call
returns the state completely unchanged — flag and reason included —
regardless of the three temperature readings. -/
theorem evaluate_latching (cfg : SafetyConfig) (s : SafetyState) (t0 t1 t2 : F)
    (h : s.scram = true) : evaluate cfg s t0 t1 t2 = s := by
  simp [evaluate, h]

/-- Witness for C1 at a concrete tripped state and concrete readings. -/
theorem evaluate_latching_witness :
    evaluate SafetyConfig.default { scram := true, reason := some TripReason.OverTemp }
      (F.fin 100) (F.fin 100) (F.fin 100) =
      { scram := true, reason := some TripReason.OverTemp } :=
  evaluate_latching _ _ _ _ _ rfl

/-- C2: from an armed state, if fewer than 2 of the 3 readings are valid,
`evaluate` trips with reason `SensorInvalid` — never `OverTemp` or
`SensorDisagree` — whatever the reading values are. -/
theorem evaluate_sensor_invalid (cfg : SafetyConfig) (s : SafetyState) (t0 t1 t2 : F)
    (hs : s.scram = false) (hv : numValid cfg t0 t1 t2 < 2) :
    evaluate cfg s t0 t1 t2 = { scram := true, reason := some TripReason.SensorInvalid } := by
  have hb : two_out_of_three (is_valid cfg t0) (is_valid cfg t1) (is_valid cfg t2) = false := by
    cases h0 : is_valid cfg t0 <;> cases h1 : is_valid cfg t1 <;> cases h2 : is_valid cfg t2 <;>
      simp_all [two_out_of_three, numValid]
  simp [evaluate, hs, hb]

/-- Witness for C2: two NaN readings and one over-temperature reading still
report `SensorInvalid`. -/
theorem evaluate_sensor_invalid_witness :
    evaluate SafetyConfig.default { scram := false, reason := none } F.nan F.nan (F.fin 500) =
      { scram := true, reason := some TripReason.SensorInvalid } :=
  evaluate_sensor_invalid _ _ _ _ _ rfl
    (by norm_num [numValid, is_valid, SafetyConfig.default, F.isFinite, F.isNan, F.ble])

/-! ## Theorems for the plant model -/

/-- The forward-Euler temperature update as the spec formula states it,
written independently of `PlantState.step`:
`T + ((k_power*power - k_cool*coolant*(T - ambient)) / thermal_mass) * dt`,
one derivative evaluation per call. -/
def eulerTemp (p : PlantParams) (s : PlantState) (dt_s : F) : F :=
  F.add s.temp_c
    (F.mul
      (F.div
        (F.sub (F.mul p.k_power s.power)
          (F.mul (F.mul p.k_cool s.coolant) (F.sub s.temp_c p.ambient_c)))
        p.thermal_mass)
      dt_s)

/-- C8: `PlantState::step` sets the temperature to the forward-Euler value,
except that exactly when that value is NaN it is reset to the ambient
temperature. -/
theorem step_euler_with_nan_guard (s : PlantState) (p : PlantParams) (dt_s : F) :
    (s.step p dt_s).temp_c =
      if (eulerTemp p s dt_s).isNan then p.ambient_c else eulerTemp p s dt_s := rfl

/-- C10: `PlantState::step` mutates only the temperature: the power and
coolant fractions are exactly the fields of the input state. -/
theorem step_preserves_power_coolant (s : PlantState) (p : PlantParams) (dt_s : F) :
    (s.step p dt_s).power = s.power ∧ (s.step p dt_s).coolant = s.coolant :=
  ⟨rfl, rfl⟩

/-! ## Theorems for the sensor -/

/-- C9: with noise standard deviation 0, `read_temp` returns the true value
under no fault, the stuck value under `stuck`, the biased value under `bias`,
`true + rate * t * dt` under `drift` where `t` is the 1-indexed number of
the current call, and, under `dropout-every(n)` with `n > 0`, NaN exactly on
the calls whose 1-indexed number is divisible by `n` and the true value
otherwise; the tick counter increments by one on every call, dropout ticks
included. -/
theorem read_temp_spec (s : Sensor) (tv dt noise : F) (h : s.noise_std = F.fin 0) :
    (s.read_temp tv dt noise).1.step_count = s.step_count + 1 ∧
    (s.fault = SensorFault.noFault → (s.read_temp tv dt noise).2 = tv) ∧
    (∀ v, s.fault = SensorFault.stuck v → (s.read_temp tv dt noise).2 = v) ∧
    (∀ v, s.fault = SensorFault.bias v → (s.read_temp tv dt noise).2 = F.add tv v) ∧
    (∀ r, s.fault = SensorFault.drift r →
      (s.read_temp tv dt noise).2 =
        F.add tv (F.mul (F.mul r (F.fin ((s.step_count + 1 : Nat) : ℚ))) dt)) ∧
    (∀ n, 0 < n → s.fault = SensorFault.dropoutEvery n →
      (s.read_temp tv dt noise).2 =
        if (s.step_count + 1) % n = 0 then F.nan else tv) := by
  refine ⟨?_, ?_, ?_, ?_, ?_, ?_⟩
  · cases hf : s.fault <;> simp [Sensor.read_temp, hf] <;> split <;> rfl
  · intro hf; simp [Sensor.read_temp, hf, h, F.blt]
  · intro v hf; simp [Sensor.read_temp, hf, h, F.blt]
  · intro v hf; simp [Sensor.read_temp, hf, h, F.blt]
  · intro r hf; simp [Sensor.read_temp, hf, h, F.blt]
  · intro n hn hf
    simp only [Sensor.read_temp, hf, h, F.blt]
    split
    next hc => simp_all
    next hc =>
      have : ¬ (s.step_count + 1) % n = 0 := fun hmod => hc ⟨hn, hmod⟩
      simp [this, F.blt]

/-- Witness for C9: a sensor with `dropout-every(2)` and one completed tick
returns NaN on its second call. -/
theorem read_temp_spec_witness :
    (Sensor.read_temp
      { noise_std := F.fin 0, fault := SensorFault.dropoutEvery 2,
        valid_range := (F.fin 0, F.fin 2000), step_count := 1 }
      (F.fin 300) (F.fin 1) (F.fin 7)).2 = F.nan := by
  have h :=
    (read_temp_spec
      { noise_std := F.fin 0, fault := SensorFault.dropoutEvery 2,
        valid_range := (F.fin 0, F.fin 2000), step_count := 1 }
      (F.fin 300) (F.fin 1) (F.fin 7) rfl).2.2.2.2.2 2 (by norm_num) rfl
  simpa using h

/-! ## Theorems for the PID controller -/

/-- C5: for every controller state and rational (hence finite) setpoint,
measurement and nonnegative tick length, the returned command lies within
`[out_min, out_max]` inclusive, provided `out_min ≤ out_max`. -/
theorem pid_update_saturated (p : Pid) (sp m dt : ℚ)
    (hb : p.cfg.out_min ≤ p.cfg.out_max) (hdt : 0 ≤ dt) :
    p.cfg.out_min ≤ (p.update sp m dt).2 ∧ (p.update sp m dt).2 ≤ p.cfg.out_max := by
  rcases hpe : p.prev_error with _ | prev <;> simp only [Pid.update, hpe] <;> repeat' split
  all_goals first
    | exact ⟨hb, le_rfl⟩
    | exact ⟨le_rfl, hb⟩
    | exact ⟨not_lt.mp (by assumption), not_lt.mp (by assumption)⟩

/-- Witness for C5 at the default gains with a large setpoint error. -/
theorem pid_update_saturated_witness :
    (Pid.new PidConfig.default).cfg.out_min ≤
        ((Pid.new PidConfig.default).update 500 0 (1 / 20)).2 ∧
      ((Pid.new PidConfig.default).update 500 0 (1 / 20)).2 ≤
        (Pid.new PidConfig.default).cfg.out_max :=
  pid_update_saturated (Pid.new PidConfig.default) 500 0 (1 / 20)
    (by norm_num [Pid.new, PidConfig.default]) (by norm_num)

/-- C6: `Pid::update` computes the error,
accumulates the integral, takes the derivative only when a previous error
exists and `dt > 0`, clamps the raw output `kp*e + ki*I + kd*d`, decays the
already-incremented integral by `49/50` exactly when the raw output exceeded
`out_max` with positive error or fell below `out_min` with negative error,
and unconditionally stores the current error as the previous error.  The
configuration invariant `out_min ≤ out_max` stated by the data model is
assumed. -/
theorem pid_update_order (p : Pid) (sp m dt : ℚ) (hb : p.cfg.out_min ≤ p.cfg.out_max) :
    p.rawOutput sp m dt =
      p.cfg.kp * (sp - m) + p.cfg.ki * (p.integral + (sp - m) * dt) +
        p.cfg.kd * (match p.prev_error with
          | some prev => if 0 < dt then (sp - m - prev) / dt else 0
          | none => 0) ∧
    (p.update sp m dt).2 = min p.cfg.out_max (max p.cfg.out_min (p.rawOutput sp m dt)) ∧
    (p.update sp m dt).1.prev_error = some (sp - m) ∧
    (p.update sp m dt).1.integral =
      (if (p.cfg.out_max < p.rawOutput sp m dt ∧ 0 < sp - m) ∨
          (p.rawOutput sp m dt < p.cfg.out_min ∧ sp - m < 0)
        then (49 / 50 : ℚ) * (p.integral + (sp - m) * dt)
        else p.integral + (sp - m) * dt) := by
  refine ⟨rfl, ?_, ?_, ?_⟩
  · have hout : (p.update sp m dt).2 =
        (if p.cfg.out_max < p.rawOutput sp m dt then p.cfg.out_max
          else if p.rawOutput sp m dt < p.cfg.out_min then p.cfg.out_min
          else p.rawOutput sp m dt) := by
      simp only [Pid.update, Pid.rawOutput]
      split_ifs <;> rfl
    rw [hout]
    split_ifs with h1 h2 <;> (simp only [min_def, max_def]; split_ifs <;> linarith)
  · have hpe : (p.update sp m dt).1.prev_error = some (sp - m) := by
      simp only [Pid.update]
      split_ifs <;> rfl
    exact hpe
  · have hint : (p.update sp m dt).1.integral =
        (if p.cfg.out_max < p.rawOutput sp m dt then
            (if 0 < sp - m then (49 / 50 : ℚ) * (p.integral + (sp - m) * dt)
              else p.integral + (sp - m) * dt)
          else if p.rawOutput sp m dt < p.cfg.out_min then
            (if sp - m < 0 then (49 / 50 : ℚ) * (p.integral + (sp - m) * dt)
              else p.integral + (sp - m) * dt)
          else p.integral + (sp - m) * dt) := by
      simp only [Pid.update, Pid.rawOutput]
      split_ifs <;> rfl
    rw [hint]
    by_cases hdec : (p.cfg.out_max < p.rawOutput sp m dt ∧ 0 < sp - m) ∨
        (p.rawOutput sp m dt < p.cfg.out_min ∧ sp - m < 0)
    · rw [if_pos hdec]
      rcases hdec with ⟨h1, h2⟩ | ⟨h1, h2⟩
      · rw [if_pos h1, if_pos h2]
      · have hno : ¬ p.cfg.out_max < p.rawOutput sp m dt := not_lt.mpr (by linarith)
        rw [if_neg hno, if_pos h1, if_pos h2]
    · rw [if_neg hdec]
      push_neg at hdec
      by_cases hA : p.cfg.out_max < p.rawOutput sp m dt
      · rw [if_pos hA, if_neg (not_lt.mpr (hdec.1 hA))]
      · rw [if_neg hA]
        by_cases hB : p.rawOutput sp m dt < p.cfg.out_min
        · rw [if_pos hB, if_neg (not_lt.mpr (hdec.2 hB))]
        · rw [if_neg hB]

/-- Witness for C6's amended theorem at the default configuration. -/
theorem pid_update_order_witness :
    ((Pid.new PidConfig.default).update 1 0 1).1.prev_error = some (1 - 0) :=
  (pid_update_order (Pid.new PidConfig.default) 1 0 1
    (by norm_num [Pid.new, PidConfig.default])).2.2.1

/-- `Pid::update` never changes the configuration. -/
theorem pid_update_cfg (q : Pid) (sp m dt : ℚ) : (q.update sp m dt).1.cfg = q.cfg := by
  simp only [Pid.update]
  split_ifs <;> rfl

/-- Iterated updates never change the configuration. -/
theorem pidRun_cfg (sp m dt : ℚ) (p : Pid) (n : Nat) : (pidRun sp m dt p n).cfg = p.cfg := by
  induction n with
  | zero => rfl
  | succ n ih => rw [pidRun, pid_update_cfg, ih]

/-- When the raw output exceeds `out_max` and the error is positive, the
update decays the freshly accumulated integral by `49/50`. -/
theorem pid_update_integral_decay (q : Pid) (sp m dt : ℚ)
    (hover : q.cfg.out_max < q.rawOutput sp m dt) (he : 0 < sp - m) :
    (q.update sp m dt).1.integral = (49 / 50 : ℚ) * (q.integral + (sp - m) * dt) := by
  simp only [Pid.rawOutput] at hover
  simp only [Pid.update]
  rw [if_pos hover, if_pos he]

/-- C7: if the raw output exceeds `out_max` on every tick and the error
`sp - m` is a fixed positive constant with `dt > 0`, the integral
accumulator stays below the fixed bound `max I₀ (49 * e * dt)` on every
tick: each call maps `I` to `(49/50) * (I + e*dt)`, whose iterates converge
toward `49 * e * dt` and never diverge. -/
theorem pid_antiwindup_bounded (p : Pid) (sp m dt : ℚ) (n : Nat)
    (he : 0 < sp - m) (hdt : 0 < dt)
    (hraw : ∀ k, (pidRun sp m dt p k).cfg.out_max <
      (pidRun sp m dt p k).rawOutput sp m dt) :
    (pidRun sp m dt p n).integral ≤ max p.integral (49 * (sp - m) * dt) := by
  induction n with
  | zero => exact le_max_left _ _
  | succ n ih =>
    have hstep := pid_update_integral_decay (pidRun sp m dt p n) sp m dt (hraw n) he
    rw [pidRun, hstep]
    have hB : 49 * (sp - m) * dt ≤ max p.integral (49 * (sp - m) * dt) := le_max_right _ _
    have hed : 0 < (sp - m) * dt := mul_pos he hdt
    linarith

/-- A controller that is always saturated high: unit proportional gain, no
integral or derivative gain, and `out_max = 0` below the constant unit
error. -/
def pidAlwaysSat : Pid :=
  Pid.new { kp := 1, ki := 0, kd := 0, out_min := 0, out_max := 0 }

/-- With `pidAlwaysSat` and constant unit error, the raw output is `1` on
every tick, which exceeds `out_max = 0`. -/
theorem pidAlwaysSat_raw (k : Nat) :
    (pidRun 1 0 1 pidAlwaysSat k).cfg.out_max <
      (pidRun 1 0 1 pidAlwaysSat k).rawOutput 1 0 1 := by
  have hcfg := pidRun_cfg 1 0 1 pidAlwaysSat k
  simp only [Pid.rawOutput]
  rw [hcfg]
  norm_num [pidAlwaysSat, Pid.new]

/-- Witness for C7: after five saturated ticks of `pidAlwaysSat` the
integral is still below the bound. -/
theorem pid_antiwindup_bounded_witness :
    (pidRun 1 0 1 pidAlwaysSat 5).integral ≤ max pidAlwaysSat.integral (49 * (1 - 0) * 1) :=
  pid_antiwindup_bounded pidAlwaysSat 1 0 1 5 (by norm_num) (by norm_num)
    (fun k => pidAlwaysSat_raw k)

/-- A valid 2-of-3 majority in terms of the valid-channel count. -/
theorem two_out_of_three_valid_of_numValid (cfg : SafetyConfig) (t0 t1 t2 : F)
    (hv : 2 ≤ numValid cfg t0 t1 t2) :
    two_out_of_three (is_valid cfg t0) (is_valid cfg t1) (is_valid cfg t2) = true := by
  cases h0 : is_valid cfg t0 <;> cases h1 : is_valid cfg t1 <;> cases h2 : is_valid cfg t2 <;>
    simp_all [two_out_of_three, numValid]

/-- Structure of `evaluate` from an armed state with a valid majority: first
the disagreement check over the spread of the valid readings only, then the
2-of-3 over-temperature vote, else the state is returned unchanged. -/
theorem evaluate_armed_valid (cfg : SafetyConfig) (t0 t1 t2 : F) (s : SafetyState)
    (hs : s.scram = false)
    (hb : two_out_of_three (is_valid cfg t0) (is_valid cfg t1) (is_valid cfg t2) = true) :
    evaluate cfg s t0 t1 t2 =
      if F.blt cfg.max_sensor_delta_c (spreadOf (validReadings cfg t0 t1 t2)) then
        { scram := true, reason := some TripReason.SensorDisagree }
      else if 2 ≤ numOver cfg t0 t1 t2 then
        { scram := true, reason := some TripReason.OverTemp }
      else s := by
  cases h0 : is_valid cfg t0 <;> cases h1 : is_valid cfg t1 <;> cases h2 : is_valid cfg t2 <;>
    simp_all [evaluate, validReadings, spreadOf, two_out_of_three, numOver]

/-- C4: from an armed state with at least 2 valid readings, `evaluate` trips
with reason `SensorDisagree` exactly when the spread (max minus min) over
the valid readings only — invalid channels excluded — strictly exceeds the
configured maximum allowed disagreement. -/
theorem evaluate_sensor_disagree (cfg : SafetyConfig) (s : SafetyState) (t0 t1 t2 : F)
    (hs : s.scram = false) (hv : 2 ≤ numValid cfg t0 t1 t2) :
    (evaluate cfg s t0 t1 t2 = { scram := true, reason := some TripReason.SensorDisagree })
      ↔ F.blt cfg.max_sensor_delta_c (spreadOf (validReadings cfg t0 t1 t2)) = true := by
  obtain ⟨sc, sr⟩ := s
  have hs' : sc = false := hs
  subst hs'
  rw [evaluate_armed_valid cfg t0 t1 t2 _ rfl (two_out_of_three_valid_of_numValid cfg t0 t1 t2 hv)]
  by_cases hc : F.blt cfg.max_sensor_delta_c (spreadOf (validReadings cfg t0 t1 t2)) = true
  · simp [hc]
  · simp only [Bool.not_eq_true] at hc
    simp [hc]
    split <;> simp

/-- Witness for C4: two valid readings 200 degrees apart and one NaN
reading trip on disagreement under the default configuration. -/
theorem evaluate_sensor_disagree_witness :
    evaluate SafetyConfig.default { scram := false, reason := none }
      (F.fin 100) (F.fin 300) F.nan =
      { scram := true, reason := some TripReason.SensorDisagree } :=
  (evaluate_sensor_disagree SafetyConfig.default { scram := false, reason := none }
      (F.fin 100) (F.fin 300) F.nan rfl
      (by norm_num [numValid, is_valid, SafetyConfig.default, F.isFinite, F.isNan, F.ble])).mpr
    (by norm_num [spreadOf, validReadings, is_valid, SafetyConfig.default, F.isFinite,
      F.isNan, F.ble, F.blt, F.fmin, F.fmax, F.sub, F.add, F.neg])

/-- C3: from the armed state (no reason recorded), with at least 2 valid
readings whose spread is within the allowed disagreement, `evaluate` trips
with reason `OverTemp` exactly when at least 2 of the 3 channels are both
valid and at or above the trip temperature; with 0 or 1 such channels the
state stays armed with no reason. -/
theorem evaluate_over_temp_vote (cfg : SafetyConfig) (s : SafetyState) (t0 t1 t2 : F)
    (hs : s.scram = false) (hr : s.reason = none)
    (hv : 2 ≤ numValid cfg t0 t1 t2)
    (hsp : F.blt cfg.max_sensor_delta_c (spreadOf (validReadings cfg t0 t1 t2)) = false) :
    ((evaluate cfg s t0 t1 t2 = { scram := true, reason := some TripReason.OverTemp })
      ↔ 2 ≤ numOver cfg t0 t1 t2) ∧
    (numOver cfg t0 t1 t2 < 2 →
      evaluate cfg s t0 t1 t2 = { scram := false, reason := none }) := by
  obtain ⟨sc, sr⟩ := s
  have hs' : sc = false := hs
  have hr' : sr = none := hr
  subst hs'
  subst hr'
  rw [evaluate_armed_valid cfg t0 t1 t2 _ rfl (two_out_of_three_valid_of_numValid cfg t0 t1 t2 hv)]
  rw [hsp]
  by_cases hov : 2 ≤ numOver cfg t0 t1 t2
  · constructor
    · simp [hov]
    · intro h; exact absurd h (by omega)
  · simp [hov]

/-- Witness for C3: three valid, agreeing readings above the trip
temperature trip on over-temperature under the default configuration. -/
theorem evaluate_over_temp_vote_witness :
    evaluate SafetyConfig.default { scram := false, reason := none }
      (F.fin 430) (F.fin 432) (F.fin 431) =
      { scram := true, reason := some TripReason.OverTemp } :=
  (evaluate_over_temp_vote SafetyConfig.default { scram := false, reason := none }
      (F.fin 430) (F.fin 432) (F.fin 431) rfl rfl
      (by norm_num [numValid, is_valid, SafetyConfig.default, F.isFinite, F.isNan, F.ble])
      (by norm_num [spreadOf, validReadings, is_valid, SafetyConfig.default, F.isFinite,
        F.isNan, F.ble, F.blt, F.fmin, F.fmax, F.sub, F.add, F.neg])).1.mpr
    (by norm_num [numOver, is_valid, SafetyConfig.default, F.isFinite, F.isNan, F.ble])

end ReactorSim
